import Mathlib

/-!
# AI Meeting Notes Summarizer: a shallow embedding of the request handlers

The development embeds `server.js` (the Express endpoints and `extractTextFromFile`)
and the two Netlify functions (`generate-summary.js`, `share-summary.js`).

* JavaScript strings are Lean `String`s, byte buffers are lists of byte values.
* An `async` function body is a computation in `Js`: it records, in order, the calls
  made to external capabilities (PDF parser, Word extractor, speech-to-text,
  generative model, mail transport) and ends either with a value or with a thrown error.
* What the external capabilities answer is a parameter (`Runtime`).
-/

namespace MeetingNotes

/-! ## JavaScript values and errors -/

/-- A thrown JavaScript error: its `message` and, for mail transport errors, its `code`. -/
structure JsError where
  message : String
  code : Option String
deriving DecidableEq, Repr

/-- The expression `new Error(msg)`. -/
def newError (msg : String) : JsError := ⟨msg, none⟩

/-- Truthiness of an optional string field: `undefined`, `null` and `''` are falsy. -/
def truthy : Option String → Bool
  | none => false
  | some s => s != ""

/-- The expression `a || d` for an optional string `a` and a string `d`. -/
def orElse (a : Option String) (d : String) : String :=
  match a with
  | none => d
  | some s => if s != "" then s else d

/-- The characters removed by `String.prototype.trim`: ECMAScript `WhiteSpace` and
`LineTerminator` code points. -/
def isJsWhiteSpace (c : Char) : Bool :=
  let n := c.toNat
  n == 0x09 || n == 0x0A || n == 0x0B || n == 0x0C || n == 0x0D || n == 0x20 ||
  n == 0xA0 || n == 0x1680 || (0x2000 ≤ n && n ≤ 0x200A) || n == 0x2028 ||
  n == 0x2029 || n == 0x202F || n == 0x205F || n == 0x3000 || n == 0xFEFF

/-- The method `String.prototype.trim`. -/
def trim (s : String) : String :=
  String.mk ((s.data.dropWhile isJsWhiteSpace).reverse.dropWhile isJsWhiteSpace).reverse

/-- The method `String.prototype.includes`. -/
def includes (s sub : String) : Bool :=
  s.data.tails.any (fun t => sub.data.isPrefixOf t)

/-- The method `Array.prototype.join` on an array of strings. -/
def join (xs : List String) (sep : String) : String :=
  match xs with
  | [] => ""
  | x :: rest => rest.foldl (fun acc y => acc ++ sep ++ y) x

/-- The call `s.replace(/\n/g, '<br>')`. -/
def replaceNewlines (s : String) : String :=
  String.join (s.data.map (fun c => if c = '\n' then "<br>" else String.singleton c))

/-! ## Mail messages and external calls -/

/-- The object `mailOptions` handed to `transporter.sendMail`. -/
structure MailOptions where
  «from» : Option String
  «to» : String
  subject : String
  html : String
deriving DecidableEq, Repr

/-- A call to an external capability, with its arguments. -/
inductive Effect where
  | pdfParse (buffer : List Nat)
  | extractRawText (buffer : List Nat)
  | transcriptionsCreate (buffer : List Nat) (path : String)
  | generateContent (prompt : String)
  | sendMail (mailOptions : MailOptions)
deriving DecidableEq, Repr

/-- The fields of the request body read by the generate-summary handlers; `none` is an
absent or `null` field. -/
structure GenerateBody where
  transcriptText : Option String
  customPrompt : Option String
deriving DecidableEq, Repr

/-- The fields of the request body read by the share-summary handlers; `none` is an
absent or `null` field. -/
structure ShareBody where
  summary : Option String
  recipients : Option (List String)
  subject : Option String
deriving DecidableEq, Repr

/-- The answers of the external capabilities and of the built-in decoders. -/
structure Runtime where
  /-- The call `buffer.toString('utf-8')`. -/
  toStringUtf8 : List Nat → String
  /-- The value `(await pdfParse(buffer)).text`. -/
  pdfParse : List Nat → Except JsError String
  /-- The value `(await mammoth.extractRawText({ buffer })).value`. -/
  extractRawText : List Nat → Except JsError String
  /-- The value `(await openai.audio.transcriptions.create({ file, model })).text`, for the stream
  built from the buffer and named by `path` -/
  transcriptionsCreate : List Nat → String → Except JsError String
  /-- The value `(await (await model.generateContent(prompt)).response).text()`. -/
  generateContent : String → Except JsError String
  /-- The call `await transporter.sendMail(mailOptions)`. -/
  sendMail : MailOptions → Except JsError Unit
  /-- The statement `const { transcriptText, customPrompt } = JSON.parse(body)`. -/
  parseGenerateBody : String → Except JsError GenerateBody
  /-- The statement `const { summary, recipients, subject } = JSON.parse(body)`. -/
  parseShareBody : String → Except JsError ShareBody

/-- The environment variables read through `process.env`. -/
structure Env where
  GEMINI_API_KEY : Option String
  OPENAI_API_KEY : Option String
  EMAIL_USER : Option String
  EMAIL_PASS : Option String
deriving DecidableEq, Repr

/-! ## Computations with external calls and exceptions -/

/-- The run of an `async` function body: the external calls made, in order, and the
value returned or the error thrown. -/
structure Js (α : Type) where
  calls : List Effect
  result : Except JsError α

namespace Js

/-- A computation that returns `a` without any external call. -/
def ret {α : Type} (a : α) : Js α := ⟨[], .ok a⟩

/-- The statement `throw e`. -/
def raise {α : Type} (e : JsError) : Js α := ⟨[], .error e⟩

/-- Sequencing: the continuation runs only when the first part did not throw. -/
def andThen {α β : Type} (x : Js α) (f : α → Js β) : Js β :=
  match x.result with
  | .ok a => ⟨x.calls ++ (f a).calls, (f a).result⟩
  | .error e => ⟨x.calls, .error e⟩

/-- The statement `try { x } catch (e) { h e }`. -/
def tryCatch {α : Type} (x : Js α) (h : JsError → Js α) : Js α :=
  match x.result with
  | .ok a => ⟨x.calls, .ok a⟩
  | .error e => ⟨x.calls ++ (h e).calls, (h e).result⟩

/-- An awaited call to an external capability whose answer is `r`. -/
def call {α : Type} (e : Effect) (r : Except JsError α) : Js α := ⟨[e], r⟩

/-- A built-in operation that returns or throws without any external call. -/
def eval {α : Type} (r : Except JsError α) : Js α := ⟨[], r⟩

end Js

instance : Monad Js where
  pure := Js.ret
  bind := Js.andThen

instance : MonadExcept JsError Js where
  throw := Js.raise
  tryCatch := Js.tryCatch

/-! ## `server.js`: text extraction -/

/-- The uploaded file as `multer` hands it over: `req.file`. -/
structure File where
  buffer : List Nat
  mimetype : String
  originalname : String
deriving DecidableEq, Repr

/-- The array `allowedTypes` of the upload `fileFilter`. -/
def allowedTypes : List String :=
  [ "text/plain",
    "application/pdf",
    "application/msword",
    "application/vnd.openxmlformats-officedocument.wordprocessingml.document",
    "audio/mpeg",
    "audio/wav",
    "audio/mp4",
    "audio/m4a",
    "audio/webm",
    "audio/ogg" ]

/-- The upload `fileFilter`: the error passed to the callback, or acceptance. -/
def fileFilter (file : File) : Except JsError Bool :=
  if allowedTypes.contains file.mimetype then
    .ok true
  else
    .error (newError "File type not supported. Please upload text, PDF, DOC, DOCX, or audio files.")

/-- The module-level `openai` client: created only when `OPENAI_API_KEY` is set and is
not the placeholder; `none` is the initial `null`. The client is identified with its key. -/
def openai (env : Env) : Option String :=
  if truthy env.OPENAI_API_KEY && env.OPENAI_API_KEY != some "your_openai_api_key_here" then
    env.OPENAI_API_KEY
  else
    none

/-- The statement `buffer = null` inside `extractTextFromFile`. The name `buffer` is bound
by `const { buffer, mimetype, originalname } = file`, so the assignment throws
`TypeError: Assignment to constant variable.` -/
def assignBufferNull : Js Unit :=
  throw (newError "Assignment to constant variable.")

/-- The function `extractTextFromFile(file)`. -/
def extractTextFromFile (rt : Runtime) (env : Env) (file : File) : Js String :=
  let buffer := file.buffer
  let mimetype := file.mimetype
  let originalname := file.originalname
  tryCatch
    (match mimetype with
      | "text/plain" =>
        pure (rt.toStringUtf8 buffer)
      | "application/pdf" => do
        let pdfText ← Js.call (.pdfParse buffer) (rt.pdfParse buffer)
        assignBufferNull
        pure pdfText
      | "application/msword"
      | "application/vnd.openxmlformats-officedocument.wordprocessingml.document" => do
        let docText ← Js.call (.extractRawText buffer) (rt.extractRawText buffer)
        assignBufferNull
        pure docText
      | "audio/mpeg" | "audio/wav" | "audio/mp4" | "audio/m4a" | "audio/webm" | "audio/ogg" =>
        if (openai env).isNone then
          throw (newError "Audio transcription requires OpenAI API key. Please either:\n1. Add OPENAI_API_KEY to your .env file, or\n2. Use the text input field to paste your transcript manually after transcribing the audio file.")
        else
          tryCatch
            (if buffer.length > 2 * 1024 * 1024 then
              throw (newError "Audio file too large. Please use files smaller than 2MB or use text input instead.")
            else do
              let text ← Js.call (.transcriptionsCreate buffer originalname)
                (rt.transcriptionsCreate buffer originalname)
              assignBufferNull
              pure text)
            (fun audioError => do
              assignBufferNull
              throw (newError ("Audio transcription failed: " ++ audioError.message ++ ". Please try a smaller audio file or use text input instead.")))
      | _ =>
        throw (newError "Unsupported file type"))
    (fun error =>
      throw (newError ("Failed to extract text from " ++ mimetype ++ ": " ++ error.message)))

/-! ## `server.js`: the Express endpoints -/

/-- The JSON object sent as a response body. -/
inductive Payload where
  | error (error : String)
  | summary (summary : String)
  | message (message : String)
  | empty
deriving DecidableEq, Repr

/-- An HTTP response: status code and body. -/
structure Response where
  status : Nat
  body : Payload
deriving DecidableEq, Repr

/-- The request as the `/api/generate-summary` handler receives it. -/
structure GenerateRequest where
  file : Option File
  body : GenerateBody
deriving DecidableEq, Repr

/-- The built-in instruction used when `req.body.customPrompt` is falsy. -/
def defaultPrompt : String :=
  "CRITICAL FORMATTING RULES:\n1. Use descriptive labels followed by hyphens and content\n2. Use **bold** for research tasks and action items\n3. Keep formatting clean with descriptive categories\n4. Use hyphens (-) after labels\n\nFormat example:\n\nDiscussion point:\n - Quantum computers and their ability to factor large numbers efficiently.\nKey concept:\n - Quantum computers' efficiency in factoring is not directly related to quantum mechanics, but rather to their ability to find periods of periodic functions.\nDiscussion point:\n - The connection between period finding and factoring large numbers.\nKey point:\n - Efficient period finding allows for efficient factoring.\n**Research: Further investigate the purely arithmetic reasons connecting period finding and factoring.**\nKey application:\n - The implication of efficient factoring for breaking RSA encryption.\nHistorical note:\n - Peter Shor's discovery of quantum computers' super efficiency in period finding (1994-1995).\nKey concern:\n - The potential threat to internet security posed by quantum computers.\n\nSTRICT REQUIREMENTS:\nUse descriptive labels like \"Discussion point:\", \"Key concept:\", \"Key point:\", \"Historical note:\", etc.\nFollow each label with a line break and hyphen (-) with content\nUse **bold** for research tasks and action items\nNo bullet points (•) or other symbols"

/-- The handler of `app.post('/api/generate-summary', ...)`. -/
def generateSummary (rt : Runtime) (env : Env) (req : GenerateRequest) : Js Response :=
  tryCatch
    (if !truthy env.GEMINI_API_KEY || env.GEMINI_API_KEY == some "your_gemini_api_key_here" then
      pure ⟨500, .error "Gemini API key not configured. Please check your .env file."⟩
    else do
      let mut transcriptText := ""
      let customPrompt := orElse req.body.customPrompt defaultPrompt
      if let some file := req.file then
        transcriptText ← extractTextFromFile rt env file
      else if truthy req.body.transcriptText then
        transcriptText := req.body.transcriptText.getD ""
      else
        return ⟨400, .error "No transcript provided"⟩
      if trim transcriptText == "" then
        return ⟨400, .error "Transcript text is empty"⟩
      let fullPrompt := customPrompt ++ "\n\nTranscript:\n" ++ transcriptText
      let summary ← Js.call (.generateContent fullPrompt) (rt.generateContent fullPrompt)
      pure ⟨200, .summary summary⟩)
    (fun error =>
      if includes error.message "API_KEY_INVALID" then
        pure ⟨500, .error "Invalid Gemini API key. Please check your API key."⟩
      else if includes error.message "PERMISSION_DENIED" then
        pure ⟨500, .error "Permission denied. Please check your Gemini API key permissions."⟩
      else if includes error.message "OpenAI API key required" then
        pure ⟨500, .error error.message⟩
      else
        pure ⟨500, .error ("Failed to generate summary: " ++ error.message)⟩)

/-- The handler of `app.post('/api/share-summary', ...)`, applied to `req.body`. After the
guard `!summary || !recipients || recipients.length === 0` both fields are present, so
`getD` only unwraps them. -/
def shareSummary (rt : Runtime) (env : Env) (body : ShareBody) : Js Response :=
  tryCatch
    (if !truthy env.EMAIL_USER || !truthy env.EMAIL_PASS ||
        env.EMAIL_USER == some "your_gmail_address@gmail.com" ||
        env.EMAIL_PASS == some "your_gmail_app_password" then
      pure ⟨500, .error "Email credentials not configured. Please set EMAIL_USER and EMAIL_PASS in your .env file."⟩
    else
      let summary := body.summary
      let recipients := body.recipients
      let subject := body.subject
      if !truthy summary || recipients.isNone || (recipients.getD []).length == 0 then
        pure ⟨400, .error "Summary and recipients are required"⟩
      else do
        let mailOptions : MailOptions :=
          { «from» := env.EMAIL_USER
            «to» := join (recipients.getD []) ", "
            subject := orElse subject "Meeting Summary"
            html := "\n        <div style=\"font-family: Arial, sans-serif; max-width: 600px; margin: 0 auto;\">\n          <h2 style=\"color: #333;\">Meeting Summary</h2>\n          <div style=\"background-color: #f5f5f5; padding: 20px; border-radius: 5px;\">\n            " ++ replaceNewlines (summary.getD "") ++ "\n          </div>\n          <p style=\"color: #666; font-size: 12px; margin-top: 20px;\">\n            This summary was generated using AI-powered meeting notes summarizer.\n          </p>\n        </div>\n      " }
        Js.call (.sendMail mailOptions) (rt.sendMail mailOptions)
        pure ⟨200, .message "Summary shared successfully"⟩)
    (fun error =>
      if error.code == some "EAUTH" then
        pure ⟨500, .error "Email authentication failed. Please check your Gmail credentials and ensure you are using an App Password, not your regular password."⟩
      else if error.code == some "ECONNECTION" then
        pure ⟨500, .error "Failed to connect to email server. Please check your internet connection."⟩
      else
        pure ⟨500, .error ("Failed to share summary: " ++ error.message)⟩)

/-! ## The Netlify functions -/

namespace Netlify

/-- The fields of the Netlify `event` the handlers read. -/
structure Event where
  httpMethod : String
  body : String
deriving DecidableEq, Repr

/-- The object a Netlify handler returns. The body is `''` (`Payload.empty`) or
`JSON.stringify` of the given object. -/
structure Result where
  statusCode : Nat
  headers : List (String × String)
  body : Payload
deriving DecidableEq, Repr

/-- The CORS `headers` object of both handlers. -/
def headers : List (String × String) :=
  [ ("Access-Control-Allow-Origin", "*"),
    ("Access-Control-Allow-Headers", "Content-Type"),
    ("Access-Control-Allow-Methods", "POST, OPTIONS") ]

/-- Whether `nodemailer.<property>` is a function. The library's transport factory is
`createTransport`, the one `server.js` calls; the module has no `createTransporter`. -/
def nodemailerHas (property : String) : Bool :=
  property == "createTransport"

/-- The call `nodemailer.<property>(...)`: calling a property that is not a function
throws a `TypeError`. -/
def nodemailerCall (property : String) : Js Unit :=
  if nodemailerHas property then
    pure ()
  else
    throw (newError ("nodemailer." ++ property ++ " is not a function"))

namespace GenerateSummary

/-- The function `exports.handler` of `netlify/functions/generate-summary.js`. -/
def handler (rt : Runtime) (event : Event) : Js Result :=
  if event.httpMethod == "OPTIONS" then
    pure ⟨200, headers, .empty⟩
  else if event.httpMethod != "POST" then
    pure ⟨405, headers, .error "Method not allowed"⟩
  else
    tryCatch
      (do
        let parsed ← Js.eval (rt.parseGenerateBody event.body)
        let transcriptText := parsed.transcriptText
        let customPrompt := parsed.customPrompt
        if !truthy transcriptText then
          pure ⟨400, headers, .error "No transcript provided"⟩
        else do
          let defaultPrompt := "Summarize the following meeting notes in a clear and structured format:"
          let fullPrompt := orElse customPrompt defaultPrompt ++ "\n\nTranscript:\n" ++ transcriptText.getD ""
          let summary ← Js.call (.generateContent fullPrompt) (rt.generateContent fullPrompt)
          pure ⟨200, headers, .summary summary⟩)
      (fun _error =>
        pure ⟨500, headers, .error "Failed to generate summary"⟩)

end GenerateSummary

namespace ShareSummary

/-- The function `exports.handler` of `netlify/functions/share-summary.js`. -/
def handler (rt : Runtime) (env : Env) (event : Event) : Js Result :=
  if event.httpMethod == "OPTIONS" then
    pure ⟨200, headers, .empty⟩
  else if event.httpMethod != "POST" then
    pure ⟨405, headers, .error "Method not allowed"⟩
  else
    tryCatch
      (do
        let parsed ← Js.eval (rt.parseShareBody event.body)
        let summary := parsed.summary
        let recipients := parsed.recipients
        let subject := parsed.subject
        if !truthy summary || recipients.isNone || (recipients.getD []).length == 0 then
          pure ⟨400, headers, .error "Summary and recipients are required"⟩
        else do
          nodemailerCall "createTransporter"
          let mailOptions : MailOptions :=
            { «from» := env.EMAIL_USER
              «to» := join (recipients.getD []) ", "
              subject := orElse subject "Meeting Summary"
              html := "\n        <div style=\"font-family: Arial, sans-serif; max-width: 600px; margin: 0 auto;\">\n          <h2 style=\"color: #333;\">Meeting Summary</h2>\n          <div style=\"background-color: #f5f5f5; padding: 20px; border-radius: 5px;\">\n            " ++ replaceNewlines (summary.getD "") ++ "\n          </div>\n          <p style=\"color: #666; font-size: 12px; margin-top: 20px;\">\n            This summary was generated using AI-powered meeting notes summarizer.\n          </p>\n        </div>\n      " }
          Js.call (.sendMail mailOptions) (rt.sendMail mailOptions)
          pure ⟨200, headers, .message "Summary shared successfully"⟩)
      (fun _error =>
        pure ⟨500, headers, .error "Failed to share summary"⟩)

end ShareSummary

end Netlify

/-! ## The specification's view, and concrete inputs -/

/-- The allow-list as the specification (section 4.1, Extractor Registry) writes it. -/
def specAllowList : List String :=
  [ "text/plain", "application/pdf", "application/msword",
    "application/vnd.openxmlformats-officedocument.wordprocessingml.document",
    "audio/mpeg", "audio/wav", "audio/mp4", "audio/m4a", "audio/webm", "audio/ogg" ]

/-- The six `case` labels of the audio branch of the `switch` in `extractTextFromFile`. -/
def audioTypes : List String :=
  ["audio/mpeg", "audio/wav", "audio/mp4", "audio/m4a", "audio/webm", "audio/ogg"]

/-- The text thrown by the default branch, as the outer `catch` wraps it for type `m`. -/
def unsupportedMessage (m : String) : String :=
  "Failed to extract text from " ++ m ++ ": Unsupported file type"

/-- The text of the HTML template before the embedded summary. -/
def htmlPrefix : String :=
  "\n        <div style=\"font-family: Arial, sans-serif; max-width: 600px; margin: 0 auto;\">\n          <h2 style=\"color: #333;\">Meeting Summary</h2>\n          <div style=\"background-color: #f5f5f5; padding: 20px; border-radius: 5px;\">\n            "

/-- The text of the HTML template after the embedded summary. -/
def htmlSuffix : String :=
  "\n          </div>\n          <p style=\"color: #666; font-size: 12px; margin-top: 20px;\">\n            This summary was generated using AI-powered meeting notes summarizer.\n          </p>\n        </div>\n      "

/-- A runtime in which every capability succeeds: buffers decode as Latin-1 code points,
the extractors and the transcriber return a fixed sentence, the generative model a fixed
summary, and request bodies parse to the given objects. -/
def sampleRuntime (generateBody : GenerateBody) (shareBody : ShareBody) : Runtime where
  toStringUtf8 := fun buffer => String.mk (buffer.map Char.ofNat)
  pdfParse := fun _ => .ok "Team discussed roadmap."
  extractRawText := fun _ => .ok "Team discussed roadmap."
  transcriptionsCreate := fun _ _ => .ok "Team discussed roadmap."
  generateContent := fun _ => .ok "Roadmap was discussed."
  sendMail := fun _ => .ok ()
  parseGenerateBody := fun _ => .ok generateBody
  parseShareBody := fun _ => .ok shareBody

/-- A fully configured environment. -/
def sampleEnv : Env where
  GEMINI_API_KEY := some "gemini-key"
  OPENAI_API_KEY := some "openai-key"
  EMAIL_USER := some "notes@gmail.com"
  EMAIL_PASS := some "app-password"

/-- An empty generate-summary body. -/
def noGenerateBody : GenerateBody := ⟨none, none⟩

/-- An empty share-summary body. -/
def noShareBody : ShareBody := ⟨none, none, none⟩

/-- An MP3 upload of `2 * 1024 * 1024 + 1` bytes. -/
def oversizedAudio : File :=
  ⟨List.replicate (2 * 1024 * 1024 + 1) 0, "audio/mpeg", "meeting.mp3"⟩

/-- The error string of a failed `/api/generate-summary` request as the specification's
failure taxonomy lists it for a failure with message `m`, by first match: invalid API
key, permission denied, the audio capability message itself, and the wrapped catch-all. -/
def surfacedError (m : String) : String :=
  if includes m "API_KEY_INVALID" then
    "Invalid Gemini API key. Please check your API key."
  else if includes m "PERMISSION_DENIED" then
    "Permission denied. Please check your Gemini API key permissions."
  else if includes m "OpenAI API key required" then
    m
  else
    "Failed to generate summary: " ++ m

/-- The text thrown by the audio branch when the `openai` client is `null`. -/
def audioGuidance : String :=
  "Audio transcription requires OpenAI API key. Please either:\n1. Add OPENAI_API_KEY to your .env file, or\n2. Use the text input field to paste your transcript manually after transcribing the audio file."

/-- The remediation text the inner `catch` of the audio branch builds around the message
`c` of a failed transcription. -/
def transcriptionFailedMessage (c : String) : String :=
  "Audio transcription failed: " ++ c ++
    ". Please try a smaller audio file or use text input instead."

/-- A runtime in which the PDF parser, the Word extractor, the transcriber and the
generative model all throw `cause`; the rest is as in `sampleRuntime`. -/
def failingRuntime (cause : JsError) : Runtime where
  toStringUtf8 := fun buffer => String.mk (buffer.map Char.ofNat)
  pdfParse := fun _ => .error cause
  extractRawText := fun _ => .error cause
  transcriptionsCreate := fun _ _ => .error cause
  generateContent := fun _ => .error cause
  sendMail := fun _ => .ok ()
  parseGenerateBody := fun _ => .ok noGenerateBody
  parseShareBody := fun _ => .ok noShareBody

/-- An environment in which no variable is set. -/
def emptyEnv : Env := ⟨none, none, none, none⟩

/-- An environment in which only `GEMINI_API_KEY` is set. -/
def geminiOnlyEnv : Env := ⟨some "gemini-key", none, none, none⟩

/-! ## Evaluation lemmas -/

@[simp] theorem pure_eq {α : Type} (a : α) : (pure a : Js α) = ⟨[], .ok a⟩ := rfl

@[simp] theorem throw_eq {α : Type} (e : JsError) : (throw e : Js α) = ⟨[], .error e⟩ := rfl

@[simp] theorem bind_eq {α β : Type} (x : Js α) (f : α → Js β) :
    (x >>= f) = Js.andThen x f := rfl

@[simp] theorem tryCatch_eq {α : Type} (x : Js α) (h : JsError → Js α) :
    (tryCatch x h) = Js.tryCatch x h := rfl

@[simp] theorem truthy_some (s : String) : truthy (some s) = (s != "") := rfl

@[simp] theorem truthy_none : truthy none = false := rfl

theorem extract_plain (rt : Runtime) (env : Env) (file : File)
    (h : file.mimetype = "text/plain") :
    extractTextFromFile rt env file = ⟨[], .ok (rt.toStringUtf8 file.buffer)⟩ := by
  obtain ⟨b, m, n⟩ := file
  simp only at h
  subst h
  simp [extractTextFromFile, Js.tryCatch]

theorem extract_pdf (rt : Runtime) (env : Env) (file : File)
    (h : file.mimetype = "application/pdf") :
    extractTextFromFile rt env file =
      ⟨[.pdfParse file.buffer], .error (newError ("Failed to extract text from " ++ file.mimetype ++ ": " ++
        (match rt.pdfParse file.buffer with
          | .ok _ => "Assignment to constant variable."
          | .error e => e.message)))⟩ := by
  obtain ⟨b, m, n⟩ := file
  simp only at h
  subst h
  cases hp : rt.pdfParse b with
  | ok t =>
    simp [extractTextFromFile, Js.tryCatch, Js.andThen, Js.call, assignBufferNull, newError, hp]
    rfl
  | error e =>
    simp [extractTextFromFile, Js.tryCatch, Js.andThen, Js.call, newError, hp]

theorem extract_word (rt : Runtime) (env : Env) (file : File)
    (h : file.mimetype = "application/msword" ∨ file.mimetype =
      "application/vnd.openxmlformats-officedocument.wordprocessingml.document") :
    extractTextFromFile rt env file =
      ⟨[.extractRawText file.buffer], .error (newError ("Failed to extract text from " ++ file.mimetype ++ ": " ++
        (match rt.extractRawText file.buffer with
          | .ok _ => "Assignment to constant variable."
          | .error e => e.message)))⟩ := by
  obtain ⟨b, m, n⟩ := file
  simp only at h
  rcases h with h | h <;> subst h <;> cases hp : rt.extractRawText b <;>
    simp [extractTextFromFile, Js.tryCatch, Js.andThen, Js.call, assignBufferNull, newError, hp] <;>
    rfl

theorem extract_audio_unconfigured (rt : Runtime) (env : Env) (file : File)
    (h : file.mimetype ∈ audioTypes) (ho : openai env = none) :
    extractTextFromFile rt env file =
      ⟨[], .error (newError ("Failed to extract text from " ++ file.mimetype ++ ": " ++
        "Audio transcription requires OpenAI API key. Please either:\n1. Add OPENAI_API_KEY to your .env file, or\n2. Use the text input field to paste your transcript manually after transcribing the audio file."))⟩ := by
  obtain ⟨b, m, n⟩ := file
  simp only [audioTypes, List.mem_cons, List.mem_singleton, List.not_mem_nil, or_false] at h
  rcases h with h | h | h | h | h | h <;> subst h <;>
    simp [extractTextFromFile, Js.tryCatch, newError, ho]

theorem extract_audio_large (rt : Runtime) (env : Env) (file : File)
    (h : file.mimetype ∈ audioTypes) (ho : openai env ≠ none)
    (hl : file.buffer.length > 2 * 1024 * 1024) :
    extractTextFromFile rt env file =
      ⟨[], .error (newError ("Failed to extract text from " ++ file.mimetype ++ ": " ++
        "Assignment to constant variable."))⟩ := by
  obtain ⟨b, m, n⟩ := file
  simp only [audioTypes, List.mem_cons, List.mem_singleton, List.not_mem_nil, or_false] at h
  simp only at hl
  have ho2 : (openai env).isNone = false := by
    cases hx : openai env <;> simp_all
  rcases h with h | h | h | h | h | h <;> subst h <;>
    simp [extractTextFromFile, Js.tryCatch, Js.andThen, assignBufferNull, newError, ho2, hl]

theorem extract_audio_small (rt : Runtime) (env : Env) (file : File)
    (h : file.mimetype ∈ audioTypes) (ho : openai env ≠ none)
    (hl : file.buffer.length ≤ 2 * 1024 * 1024) :
    extractTextFromFile rt env file =
      ⟨[.transcriptionsCreate file.buffer file.originalname],
        .error (newError ("Failed to extract text from " ++ file.mimetype ++ ": " ++
          "Assignment to constant variable."))⟩ := by
  obtain ⟨b, m, n⟩ := file
  simp only [audioTypes, List.mem_cons, List.mem_singleton, List.not_mem_nil, or_false] at h
  simp only at hl
  have ho2 : (openai env).isNone = false := by
    cases hx : openai env <;> simp_all
  have hl2 : ¬ (2 * 1024 * 1024 < b.length) := by omega
  rcases h with h | h | h | h | h | h <;> subst h <;>
    cases hp : rt.transcriptionsCreate b n <;>
    simp [extractTextFromFile, Js.tryCatch, Js.andThen, Js.call, assignBufferNull, newError, ho2, hl2, hp]

theorem extract_unsupported (rt : Runtime) (env : Env) (file : File)
    (h : file.mimetype ∉ allowedTypes) :
    extractTextFromFile rt env file =
      ⟨[], .error (newError ("Failed to extract text from " ++ file.mimetype ++ ": " ++
        "Unsupported file type"))⟩ := by
  simp [allowedTypes] at h
  unfold extractTextFromFile
  simp only []
  split <;> simp_all [Js.tryCatch, newError]


theorem generateSummary_unconfigured (rt : Runtime) (env : Env) (req : GenerateRequest)
    (h : truthy env.GEMINI_API_KEY = false ∨
      env.GEMINI_API_KEY = some "your_gemini_api_key_here") :
    generateSummary rt env req =
      ⟨[], .ok ⟨500, .error "Gemini API key not configured. Please check your .env file."⟩⟩ := by
  unfold generateSummary
  rcases h with h | h <;> simp [h, Js.tryCatch]

theorem generateSummary_text (rt : Runtime) (env : Env) (req : GenerateRequest) (t : String)
    (hk : truthy env.GEMINI_API_KEY = true)
    (hp : env.GEMINI_API_KEY ≠ some "your_gemini_api_key_here")
    (hf : req.file = none) (ht : req.body.transcriptText = some t) (hne : trim t ≠ "") :
    (generateSummary rt env req).calls =
      [.generateContent (orElse req.body.customPrompt defaultPrompt ++ "\n\nTranscript:\n" ++ t)] := by
  have h0 : t ≠ "" := by
    rintro rfl
    exact hne (by decide)
  unfold generateSummary
  cases hg : rt.generateContent
      (orElse req.body.customPrompt defaultPrompt ++ "\n\nTranscript:\n" ++ t) with
  | ok summary =>
    simp [hk, hp, hf, ht, h0, hne, Js.tryCatch, Js.andThen, Js.call, hg]
  | error e =>
    simp [hk, hp, hf, ht, h0, hne, Js.tryCatch, Js.andThen, Js.call, hg]
    split_ifs <;> rfl

theorem generateSummary_file (rt : Runtime) (env : Env) (req : GenerateRequest) (file : File)
    (t : String)
    (hk : truthy env.GEMINI_API_KEY = true)
    (hp : env.GEMINI_API_KEY ≠ some "your_gemini_api_key_here")
    (hf : req.file = some file) (ht : (extractTextFromFile rt env file).result = .ok t)
    (hne : trim t ≠ "") :
    (generateSummary rt env req).calls = (extractTextFromFile rt env file).calls ++
      [.generateContent (orElse req.body.customPrompt defaultPrompt ++ "\n\nTranscript:\n" ++ t)] := by
  unfold generateSummary
  cases hg : rt.generateContent
      (orElse req.body.customPrompt defaultPrompt ++ "\n\nTranscript:\n" ++ t) with
  | ok summary =>
    simp [hk, hp, hf, ht, hne, Js.tryCatch, Js.andThen, Js.call, hg]
  | error e =>
    simp [hk, hp, hf, ht, hne, Js.tryCatch, Js.andThen, Js.call, hg]
    split_ifs <;> rfl

theorem generateSummary_blank (rt : Runtime) (env : Env) (req : GenerateRequest) (t : String)
    (hk : truthy env.GEMINI_API_KEY = true)
    (hp : env.GEMINI_API_KEY ≠ some "your_gemini_api_key_here")
    (hf : req.file = none) (ht : req.body.transcriptText = some t) (he : trim t = "") :
    generateSummary rt env req =
      ⟨[], .ok ⟨400, .error (if t = "" then "No transcript provided" else "Transcript text is empty")⟩⟩ := by
  unfold generateSummary
  by_cases h0 : t = ""
  · simp [hk, hp, hf, ht, h0, Js.tryCatch, Js.andThen]
  · simp [hk, hp, hf, ht, h0, he, Js.tryCatch, Js.andThen]

/-! ## Text extraction (C1, C2, C10) -/

theorem unsupportedMessage_eq (m : String) :
    "Failed to extract text from " ++ m ++ ": " ++ "Unsupported file type" = unsupportedMessage m := by
  unfold unsupportedMessage
  rw [String.append_assoc _ ": " _]
  rfl

theorem allowed_cases (m : String) (h : m ∈ allowedTypes) :
    m = "text/plain" ∨ m = "application/pdf" ∨
      (m = "application/msword" ∨
        m = "application/vnd.openxmlformats-officedocument.wordprocessingml.document") ∨
      m ∈ audioTypes := by
  simp only [allowedTypes, audioTypes, List.mem_cons, List.mem_singleton, List.not_mem_nil,
    or_false] at h ⊢
  tauto

theorem append_left_cancel (p a b : String) (h : p ++ a = p ++ b) : a = b := by
  have h2 := congrArg String.data h
  simp only [String.data_append] at h2
  exact String.ext (List.append_cancel_left h2)

theorem audio_not_unsupported (rt : Runtime) (env : Env) (file : File)
    (h : file.mimetype ∈ audioTypes) :
    (extractTextFromFile rt env file).calls <+: [.transcriptionsCreate file.buffer file.originalname] ∧
    (extractTextFromFile rt env file).result ≠ .error (newError (unsupportedMessage file.mimetype)) := by
  rw [← unsupportedMessage_eq]
  by_cases ho : openai env = none
  · rw [extract_audio_unconfigured rt env file h ho]
    refine ⟨List.nil_prefix, ?_⟩
    intro hc
    simp only [newError, Except.error.injEq, JsError.mk.injEq, and_true] at hc
    exact absurd (append_left_cancel _ _ _ hc) (by decide)
  · by_cases hl : file.buffer.length > 2 * 1024 * 1024
    · rw [extract_audio_large rt env file h ho hl]
      refine ⟨List.nil_prefix, ?_⟩
      intro hc
      simp only [newError, Except.error.injEq, JsError.mk.injEq, and_true] at hc
      exact absurd (append_left_cancel _ _ _ hc) (by decide)
    · rw [extract_audio_small rt env file h ho (by omega)]
      refine ⟨List.prefix_refl _, ?_⟩
      intro hc
      simp only [newError, Except.error.injEq, JsError.mk.injEq, and_true] at hc
      exact absurd (append_left_cancel _ _ _ hc) (by decide)

/-- C1: of the supported types only `text/plain` is ever extracted. A plain-text upload
returns the decoded buffer without failing; for every other supported type (PDF, Word,
audio) `extractTextFromFile` never returns a text, and for a PDF whose parser succeeds it
fails with `Assignment to constant variable.` after the parser has run, because
`buffer = null` assigns to a `const` binding. -/
theorem C1_only_plain_text_is_extracted (rt : Runtime) (env : Env) (file : File)
    (hm : file.mimetype ∈ allowedTypes) :
    (file.mimetype = "text/plain" →
      extractTextFromFile rt env file = ⟨[], .ok (rt.toStringUtf8 file.buffer)⟩) ∧
    (file.mimetype ≠ "text/plain" → ∀ t, (extractTextFromFile rt env file).result ≠ .ok t) ∧
    (file.mimetype = "application/pdf" → ∀ t, rt.pdfParse file.buffer = .ok t →
      extractTextFromFile rt env file = ⟨[.pdfParse file.buffer], .error (newError
        "Failed to extract text from application/pdf: Assignment to constant variable.")⟩) := by
  refine ⟨extract_plain rt env file, ?_, ?_⟩
  · intro hne t
    rcases allowed_cases _ hm with h | h | h | h
    · exact absurd h hne
    · rw [extract_pdf rt env file h]; simp
    · rw [extract_word rt env file h]; simp
    · by_cases ho : openai env = none
      · rw [extract_audio_unconfigured rt env file h ho]; simp
      · by_cases hl : file.buffer.length > 2 * 1024 * 1024
        · rw [extract_audio_large rt env file h ho hl]; simp
        · rw [extract_audio_small rt env file h ho (by omega)]; simp
  · intro h t ht
    rw [extract_pdf rt env file h, ht, h]
    rfl

/-- C1 at a concrete upload: a PDF whose parser succeeds. -/
theorem C1_only_plain_text_is_extracted_witness :
    "application/pdf" ∈ allowedTypes ∧
    extractTextFromFile (sampleRuntime noGenerateBody noShareBody) sampleEnv
        ⟨[37, 80, 68, 70], "application/pdf", "notes.pdf"⟩ =
      ⟨[.pdfParse [37, 80, 68, 70]], .error (newError
        "Failed to extract text from application/pdf: Assignment to constant variable.")⟩ :=
  ⟨by decide,
    (C1_only_plain_text_is_extracted (sampleRuntime noGenerateBody noShareBody) sampleEnv
      ⟨[37, 80, 68, 70], "application/pdf", "notes.pdf"⟩ (by decide)).2.2 rfl
      "Team discussed roadmap." rfl⟩

/-- C2: a type outside the allow-list of the specification always fails with
`'Failed to extract text from ' + m + ': Unsupported file type'`, whatever the buffer,
the environment and the capabilities are, and only such a type does: the failure is
forced by the type alone exactly when the type is not in the list. The upload
`fileFilter` accepts exactly the types of that list, and an accepted type is dispatched
to the plain, PDF, Word or audio strategy; there the unsupported-type text can only
appear when the PDF or Word library itself throws an error with that message. -/
theorem C2_unsupported_type_iff_not_in_allow_list (m : String) :
    ((∀ (rt : Runtime) (env : Env) (buffer : List Nat) (originalname : String),
        extractTextFromFile rt env ⟨buffer, m, originalname⟩ =
          ⟨[], .error (newError (unsupportedMessage m))⟩) ↔ m ∉ specAllowList) ∧
    (∀ (buffer : List Nat) (originalname : String),
        fileFilter ⟨buffer, m, originalname⟩ = .ok true ↔ m ∈ specAllowList) ∧
    (m ∈ specAllowList →
      ∀ (rt : Runtime) (env : Env) (buffer : List Nat) (originalname : String),
        (m = "text/plain" ∧ extractTextFromFile rt env ⟨buffer, m, originalname⟩ =
            ⟨[], .ok (rt.toStringUtf8 buffer)⟩) ∨
        (m = "application/pdf" ∧
          (extractTextFromFile rt env ⟨buffer, m, originalname⟩).calls = [.pdfParse buffer] ∧
          ((extractTextFromFile rt env ⟨buffer, m, originalname⟩).result =
              .error (newError (unsupportedMessage m)) →
            ∃ e, rt.pdfParse buffer = .error e ∧ e.message = "Unsupported file type")) ∨
        ((m = "application/msword" ∨ m =
            "application/vnd.openxmlformats-officedocument.wordprocessingml.document") ∧
          (extractTextFromFile rt env ⟨buffer, m, originalname⟩).calls =
            [.extractRawText buffer] ∧
          ((extractTextFromFile rt env ⟨buffer, m, originalname⟩).result =
              .error (newError (unsupportedMessage m)) →
            ∃ e, rt.extractRawText buffer = .error e ∧ e.message = "Unsupported file type")) ∨
        (m ∈ audioTypes ∧
          (extractTextFromFile rt env ⟨buffer, m, originalname⟩).calls <+:
            [.transcriptionsCreate buffer originalname] ∧
          (extractTextFromFile rt env ⟨buffer, m, originalname⟩).result ≠
            .error (newError (unsupportedMessage m)))) := by
  have hlist : specAllowList = allowedTypes := rfl
  refine ⟨⟨?_, ?_⟩, ?_, ?_⟩
  · intro hall hmem
    rw [hlist] at hmem
    have h0 := hall (sampleRuntime noGenerateBody noShareBody) sampleEnv [] ""
    rcases allowed_cases _ hmem with h | h | h | h
    · rw [extract_plain _ _ _ h] at h0
      simp at h0
    · rw [extract_pdf _ _ _ h] at h0
      simp at h0
    · rw [extract_word _ _ _ h] at h0
      simp at h0
    · have h1 := (audio_not_unsupported (sampleRuntime noGenerateBody noShareBody) sampleEnv
        ⟨[], m, ""⟩ h).2
      rw [h0] at h1
      exact h1 rfl
  · intro hmem rt env buffer originalname
    rw [hlist] at hmem
    rw [extract_unsupported rt env _ hmem, unsupportedMessage_eq]
  · intro buffer originalname
    rw [hlist]
    unfold fileFilter
    by_cases hc : m ∈ allowedTypes
    · simp [hc]
    · simp [hc]
  · intro hmem rt env buffer originalname
    rw [hlist] at hmem
    rcases allowed_cases _ hmem with h | h | h | h
    · exact Or.inl ⟨h, extract_plain rt env _ h⟩
    · refine Or.inr (Or.inl ⟨h, ?_, ?_⟩)
      · rw [extract_pdf rt env _ h]
      · rw [extract_pdf rt env _ h, ← unsupportedMessage_eq]
        intro hc
        simp only [newError, Except.error.injEq, JsError.mk.injEq, and_true] at hc
        have hc2 := append_left_cancel _ _ _ hc
        cases hp : rt.pdfParse buffer with
        | ok t =>
          simp only [hp] at hc2
          exact absurd hc2 (by decide)
        | error e =>
          simp only [hp] at hc2
          exact ⟨e, rfl, hc2⟩
    · refine Or.inr (Or.inr (Or.inl ⟨h, ?_, ?_⟩))
      · rw [extract_word rt env _ h]
      · rw [extract_word rt env _ h, ← unsupportedMessage_eq]
        intro hc
        simp only [newError, Except.error.injEq, JsError.mk.injEq, and_true] at hc
        have hc2 := append_left_cancel _ _ _ hc
        cases hp : rt.extractRawText buffer with
        | ok t =>
          simp only [hp] at hc2
          exact absurd hc2 (by decide)
        | error e =>
          simp only [hp] at hc2
          exact ⟨e, rfl, hc2⟩
    · exact Or.inr (Or.inr (Or.inr ⟨h, audio_not_unsupported rt env ⟨buffer, m, originalname⟩ h⟩))

/-! ## The generate-summary handlers (C3, C4, C5, C9) -/

theorem netlify_generate_post (rt : Runtime) (event : Netlify.Event) (t : String)
    (c : Option String) (hpost : event.httpMethod = "POST")
    (hparse : rt.parseGenerateBody event.body = .ok ⟨some t, c⟩) (ht : t ≠ "") :
    (Netlify.GenerateSummary.handler rt event).calls =
        [.generateContent (orElse c
          "Summarize the following meeting notes in a clear and structured format:" ++
          "\n\nTranscript:\n" ++ t)] ∧
      ∃ r, (Netlify.GenerateSummary.handler rt event).result = .ok r ∧
        (r.statusCode = 200 ∨ r.statusCode = 500) := by
  unfold Netlify.GenerateSummary.handler
  cases hg : rt.generateContent (orElse c
      "Summarize the following meeting notes in a clear and structured format:" ++
      "\n\nTranscript:\n" ++ t) <;>
    simp [hpost, hparse, ht, Js.tryCatch, Js.andThen, Js.call, Js.eval, hg]

theorem netlify_generate_missing (rt : Runtime) (event : Netlify.Event)
    (body : GenerateBody) (hpost : event.httpMethod = "POST")
    (hparse : rt.parseGenerateBody event.body = .ok body)
    (ht : body.transcriptText = none ∨ body.transcriptText = some "") :
    Netlify.GenerateSummary.handler rt event =
      ⟨[], .ok ⟨400, Netlify.headers, .error "No transcript provided"⟩⟩ := by
  unfold Netlify.GenerateSummary.handler
  rcases ht with ht | ht <;>
    simp [hpost, hparse, ht, Js.tryCatch, Js.andThen, Js.eval]

/-- C3: when a transcript text `t` reaches the generative capability, the handler makes
exactly one `generateContent` call and its prompt is `T ++ "\n\nTranscript:\n" ++ t`,
where `T` is the custom instruction `c` when it is present and non-empty and the
handler's built-in default otherwise. For the Express endpoint `t` is the body text of a
request without file, or the text extracted from the uploaded file, and is non-blank; for
the Netlify function `t` is the non-empty body text. -/
theorem C3_prompt_is_instruction_separator_transcript (rt : Runtime) (env : Env)
    (c : Option String) (t : String) (event : Netlify.Event)
    (hk : truthy env.GEMINI_API_KEY = true)
    (hp : env.GEMINI_API_KEY ≠ some "your_gemini_api_key_here") :
    (trim t ≠ "" →
      (generateSummary rt env ⟨none, ⟨some t, c⟩⟩).calls =
        [.generateContent ((match c with
          | some s => if s = "" then defaultPrompt else s
          | none => defaultPrompt) ++ "\n\nTranscript:\n" ++ t)]) ∧
    (trim t ≠ "" → ∀ (file : File) (other : Option String),
      (extractTextFromFile rt env file).result = .ok t →
      (generateSummary rt env ⟨some file, ⟨other, c⟩⟩).calls =
        (extractTextFromFile rt env file).calls ++
        [.generateContent ((match c with
          | some s => if s = "" then defaultPrompt else s
          | none => defaultPrompt) ++ "\n\nTranscript:\n" ++ t)]) ∧
    (t ≠ "" → event.httpMethod = "POST" →
      rt.parseGenerateBody event.body = .ok ⟨some t, c⟩ →
      (Netlify.GenerateSummary.handler rt event).calls =
        [.generateContent ((match c with
          | some s => if s = "" then
              "Summarize the following meeting notes in a clear and structured format:" else s
          | none => "Summarize the following meeting notes in a clear and structured format:") ++
          "\n\nTranscript:\n" ++ t)]) := by
  have ho : ∀ d : String, orElse c d = (match c with
      | some s => if s = "" then d else s
      | none => d) := by
    intro d
    cases c with
    | none => rfl
    | some s => by_cases hs : s = "" <;> simp [orElse, hs]
  refine ⟨?_, ?_, ?_⟩
  · intro ht
    rw [← ho]
    exact generateSummary_text rt env _ t hk hp rfl rfl ht
  · intro ht file other hx
    rw [← ho]
    exact generateSummary_file rt env _ file t hk hp rfl hx ht
  · intro ht hpost hparse
    rw [← ho]
    exact (netlify_generate_post rt event t c hpost hparse ht).1

/-- C3 at a concrete request: no custom instruction, text `Team discussed roadmap.`. -/
theorem C3_prompt_is_instruction_separator_transcript_witness :
    (generateSummary (sampleRuntime noGenerateBody noShareBody) sampleEnv
        ⟨none, ⟨some "Team discussed roadmap.", none⟩⟩).calls =
      [.generateContent (defaultPrompt ++ "\n\nTranscript:\n" ++ "Team discussed roadmap.")] :=
  (C3_prompt_is_instruction_separator_transcript (sampleRuntime noGenerateBody noShareBody)
    sampleEnv none "Team discussed roadmap." ⟨"POST", ""⟩ (by decide) (by decide)).1 (by decide)

/-- C4: with a configured, non-placeholder key and no uploaded file, a `transcriptText`
that is empty after trimming is answered with status 400 and a JSON error body, for
every `customPrompt`, and no external capability is called. -/
theorem C4_blank_transcript_is_rejected (rt : Runtime) (env : Env) (t : String)
    (c : Option String)
    (hk : truthy env.GEMINI_API_KEY = true)
    (hp : env.GEMINI_API_KEY ≠ some "your_gemini_api_key_here")
    (ht : trim t = "") :
    generateSummary rt env ⟨none, ⟨some t, c⟩⟩ =
      ⟨[], .ok ⟨400, .error (if t = "" then "No transcript provided"
        else "Transcript text is empty")⟩⟩ :=
  generateSummary_blank rt env _ t hk hp rfl rfl ht

/-- C4 at a concrete request: a transcript of blanks, tab and newline. -/
theorem C4_blank_transcript_is_rejected_witness :
    generateSummary (sampleRuntime noGenerateBody noShareBody) sampleEnv
        ⟨none, ⟨some "  \t\n ", some "Summarize in bullet points"⟩⟩ =
      ⟨[], .ok ⟨400, .error "Transcript text is empty"⟩⟩ :=
  C4_blank_transcript_is_rejected (sampleRuntime noGenerateBody noShareBody) sampleEnv
    "  \t\n " (some "Summarize in bullet points") (by decide) (by decide) (by decide)

/-- C5: the Netlify function answers 400 without a remote call when `transcriptText` is
missing or the empty string, but it does not trim: every non-empty text, also one of
white space only, is sent to the generative capability in one call and the answer has
status 200 or 500, never 400. -/
theorem C5_netlify_does_not_trim (rt : Runtime) (event : Netlify.Event)
    (transcriptText customPrompt : Option String)
    (hpost : event.httpMethod = "POST")
    (hparse : rt.parseGenerateBody event.body = .ok ⟨transcriptText, customPrompt⟩) :
    ((transcriptText = none ∨ transcriptText = some "") →
      Netlify.GenerateSummary.handler rt event =
        ⟨[], .ok ⟨400, Netlify.headers, .error "No transcript provided"⟩⟩) ∧
    (∀ t, transcriptText = some t → t ≠ "" →
      (Netlify.GenerateSummary.handler rt event).calls =
        [.generateContent (orElse customPrompt
          "Summarize the following meeting notes in a clear and structured format:" ++
          "\n\nTranscript:\n" ++ t)] ∧
      ∃ r, (Netlify.GenerateSummary.handler rt event).result = .ok r ∧
        (r.statusCode = 200 ∨ r.statusCode = 500)) := by
  refine ⟨fun h => netlify_generate_missing rt event _ hpost hparse h, ?_⟩
  intro t h1 h2
  subst h1
  exact netlify_generate_post rt event t customPrompt hpost hparse h2

/-- C5 at a concrete event: a transcript of three blanks is empty after trimming, yet it
is sent to the generative capability and the answer is 200. -/
theorem C5_netlify_does_not_trim_witness :
    trim "   " = "" ∧
    (Netlify.GenerateSummary.handler (sampleRuntime ⟨some "   ", none⟩ noShareBody)
        ⟨"POST", "\x7b\"transcriptText\":\"   \"\x7d"⟩).calls =
      [.generateContent (orElse none
          "Summarize the following meeting notes in a clear and structured format:" ++
          "\n\nTranscript:\n" ++ "   ")] ∧
    ∃ r, (Netlify.GenerateSummary.handler (sampleRuntime ⟨some "   ", none⟩ noShareBody)
        ⟨"POST", "\x7b\"transcriptText\":\"   \"\x7d"⟩).result = .ok r ∧
      (r.statusCode = 200 ∨ r.statusCode = 500) :=
  ⟨by decide,
    (C5_netlify_does_not_trim (sampleRuntime ⟨some "   ", none⟩ noShareBody)
      ⟨"POST", "\x7b\"transcriptText\":\"   \"\x7d"⟩ (some "   ") none rfl rfl).2 "   " rfl
      (by decide)⟩

/-- The values of a configuration variable that count as not configured: unset, empty,
or equal to its placeholder. -/
theorem unconfigured_cases (v : Option String) (placeholder : String)
    (h : v = none ∨ v = some "" ∨ v = some placeholder) :
    truthy v = false ∨ v = some placeholder := by
  rcases h with h | h | h
  · exact Or.inl (by rw [h]; rfl)
  · exact Or.inl (by rw [h]; rfl)
  · exact Or.inr h

/-- C9: when `GEMINI_API_KEY` is unset, empty or the placeholder, every request, with or
without file and with or without text, is answered with status 500 and the
configuration message; the run makes no external call and does not depend on the
request or on what the capabilities would answer. -/
theorem C9_missing_gemini_key_is_configuration_error (rt : Runtime) (env : Env)
    (req : GenerateRequest)
    (h : env.GEMINI_API_KEY = none ∨ env.GEMINI_API_KEY = some "" ∨
      env.GEMINI_API_KEY = some "your_gemini_api_key_here") :
    generateSummary rt env req =
      ⟨[], .ok ⟨500, .error "Gemini API key not configured. Please check your .env file."⟩⟩ :=
  generateSummary_unconfigured rt env req (unconfigured_cases _ _ h)

/-- C9 at a concrete request: the placeholder key and a plain-text upload. -/
theorem C9_missing_gemini_key_is_configuration_error_witness :
    generateSummary (sampleRuntime noGenerateBody noShareBody)
        ⟨some "your_gemini_api_key_here", none, none, none⟩
        ⟨some ⟨[104, 105], "text/plain", "notes.txt"⟩, ⟨some "hi", none⟩⟩ =
      ⟨[], .ok ⟨500, .error "Gemini API key not configured. Please check your .env file."⟩⟩ :=
  C9_missing_gemini_key_is_configuration_error _ _ _ (Or.inr (Or.inr rfl))

/-! ## The share-summary handlers (C6, C7, C8) -/

theorem intercalate_go_eq (sep : String) (rest : List String) (acc : String) :
    String.intercalate.go acc sep rest = rest.foldl (fun a y => a ++ sep ++ y) acc := by
  induction rest generalizing acc with
  | nil => rfl
  | cons x xs ih => simp [String.intercalate.go, ih]

theorem join_eq_intercalate (xs : List String) (sep : String) :
    join xs sep = sep.intercalate xs := by
  cases xs with
  | nil => rfl
  | cons x rest => simp [join, String.intercalate, intercalate_go_eq]

theorem shareSummary_unconfigured (rt : Runtime) (env : Env) (body : ShareBody)
    (h : (truthy env.EMAIL_USER = false ∨ env.EMAIL_USER = some "your_gmail_address@gmail.com") ∨
      (truthy env.EMAIL_PASS = false ∨ env.EMAIL_PASS = some "your_gmail_app_password")) :
    shareSummary rt env body = ⟨[], .ok ⟨500, .error
      "Email credentials not configured. Please set EMAIL_USER and EMAIL_PASS in your .env file."⟩⟩ := by
  unfold shareSummary
  rcases h with (h | h) | (h | h) <;> simp [h, Js.tryCatch]

theorem shareSummary_invalid (rt : Runtime) (env : Env) (body : ShareBody)
    (hu : truthy env.EMAIL_USER = true) (hp : truthy env.EMAIL_PASS = true)
    (hu2 : env.EMAIL_USER ≠ some "your_gmail_address@gmail.com")
    (hp2 : env.EMAIL_PASS ≠ some "your_gmail_app_password")
    (h : body.summary = none ∨ body.summary = some "" ∨ body.recipients = none ∨
      body.recipients = some []) :
    shareSummary rt env body =
      ⟨[], .ok ⟨400, .error "Summary and recipients are required"⟩⟩ := by
  unfold shareSummary
  rcases h with h | h | h | h <;> simp [hu, hp, hu2, hp2, h, Js.tryCatch]

theorem shareSummary_valid (rt : Runtime) (env : Env) (summary : String)
    (recipients : List String) (subject : Option String)
    (hu : truthy env.EMAIL_USER = true) (hp : truthy env.EMAIL_PASS = true)
    (hu2 : env.EMAIL_USER ≠ some "your_gmail_address@gmail.com")
    (hp2 : env.EMAIL_PASS ≠ some "your_gmail_app_password")
    (hs : summary ≠ "") (hr : recipients ≠ []) :
    (shareSummary rt env ⟨some summary, some recipients, subject⟩).calls =
      [.sendMail ⟨env.EMAIL_USER, join recipients ", ", orElse subject "Meeting Summary",
        htmlPrefix ++ replaceNewlines summary ++ htmlSuffix⟩] := by
  unfold shareSummary
  cases hm : rt.sendMail ⟨env.EMAIL_USER, join recipients ", ", orElse subject "Meeting Summary",
      htmlPrefix ++ replaceNewlines summary ++ htmlSuffix⟩ with
  | ok done =>
    simp only [htmlPrefix, htmlSuffix] at hm
    simp [hu, hp, hu2, hp2, hs, hr, Js.tryCatch, Js.andThen, Js.call, htmlPrefix, htmlSuffix, hm]
  | error e =>
    simp only [htmlPrefix, htmlSuffix] at hm
    simp [hu, hp, hu2, hp2, hs, hr, Js.tryCatch, Js.andThen, Js.call, htmlPrefix, htmlSuffix, hm]
    split_ifs <;> rfl

theorem netlify_share_invalid (rt : Runtime) (env : Env) (event : Netlify.Event)
    (body : ShareBody) (hpost : event.httpMethod = "POST")
    (hparse : rt.parseShareBody event.body = .ok body)
    (h : body.summary = none ∨ body.summary = some "" ∨ body.recipients = none ∨
      body.recipients = some []) :
    Netlify.ShareSummary.handler rt env event =
      ⟨[], .ok ⟨400, Netlify.headers, .error "Summary and recipients are required"⟩⟩ := by
  unfold Netlify.ShareSummary.handler
  rcases h with h | h | h | h <;>
    simp [hpost, hparse, h, Js.tryCatch, Js.andThen, Js.eval]

theorem netlify_share_valid (rt : Runtime) (env : Env) (event : Netlify.Event)
    (summary : String) (recipients : List String) (subject : Option String)
    (hpost : event.httpMethod = "POST")
    (hparse : rt.parseShareBody event.body = .ok ⟨some summary, some recipients, subject⟩)
    (hs : summary ≠ "") (hr : recipients ≠ []) :
    Netlify.ShareSummary.handler rt env event =
      ⟨[], .ok ⟨500, Netlify.headers, .error "Failed to share summary"⟩⟩ := by
  unfold Netlify.ShareSummary.handler
  simp [hpost, hparse, hs, hr, Js.tryCatch, Js.andThen, Js.eval, Netlify.nodemailerCall,
    Netlify.nodemailerHas]

/-- C6: for a non-empty summary and a non-empty recipient list the Express endpoint, with
mail credentials configured, submits exactly one message whose `to` header is the
recipients joined in order with `", "`. The Netlify function never builds that message:
its call `nodemailer.createTransporter(...)` throws, the library's function being
`createTransport`, so it answers 500 `Failed to share summary` and submits nothing. -/
theorem C6_recipients_joined_express_only (rt : Runtime) (env : Env) (event : Netlify.Event)
    (summary : String) (recipients : List String) (subject : Option String)
    (hs : summary ≠ "") (hr : recipients ≠ [])
    (hu : truthy env.EMAIL_USER = true) (hp : truthy env.EMAIL_PASS = true)
    (hu2 : env.EMAIL_USER ≠ some "your_gmail_address@gmail.com")
    (hp2 : env.EMAIL_PASS ≠ some "your_gmail_app_password")
    (hpost : event.httpMethod = "POST")
    (hparse : rt.parseShareBody event.body = .ok ⟨some summary, some recipients, subject⟩) :
    (∃ m, (shareSummary rt env ⟨some summary, some recipients, subject⟩).calls = [.sendMail m] ∧
      m.«to» = ", ".intercalate recipients) ∧
    Netlify.ShareSummary.handler rt env event =
      ⟨[], .ok ⟨500, Netlify.headers, .error "Failed to share summary"⟩⟩ := by
  refine ⟨⟨_, shareSummary_valid rt env summary recipients subject hu hp hu2 hp2 hs hr, ?_⟩,
    netlify_share_valid rt env event summary recipients subject hpost hparse hs hr⟩
  exact join_eq_intercalate recipients ", "

/-- C6 at a concrete request: two recipients. The Express endpoint submits one message
to `a@x.com, b@y.com`; the Netlify function answers 500 and submits no message. -/
theorem C6_recipients_joined_express_only_witness :
    (∃ m, (shareSummary
        (sampleRuntime noGenerateBody ⟨some "Roadmap was discussed.", some ["a@x.com", "b@y.com"], none⟩)
        sampleEnv ⟨some "Roadmap was discussed.", some ["a@x.com", "b@y.com"], none⟩).calls =
          [.sendMail m] ∧
      m.«to» = "a@x.com, b@y.com") ∧
    Netlify.ShareSummary.handler
        (sampleRuntime noGenerateBody ⟨some "Roadmap was discussed.", some ["a@x.com", "b@y.com"], none⟩)
        sampleEnv ⟨"POST", "body"⟩ =
      ⟨[], .ok ⟨500, Netlify.headers, .error "Failed to share summary"⟩⟩ :=
  C6_recipients_joined_express_only
    (sampleRuntime noGenerateBody ⟨some "Roadmap was discussed.", some ["a@x.com", "b@y.com"], none⟩)
    sampleEnv ⟨"POST", "body"⟩ "Roadmap was discussed." ["a@x.com", "b@y.com"] none
    (by decide) (by decide) (by decide) (by decide) (by decide) (by decide) rfl rfl

/-- C7: a share request whose summary is missing or empty, or whose recipients are
missing or the empty list, is answered with status 400 and the error
`Summary and recipients are required`, and no mail is submitted: by the Express endpoint
when the mail credentials are configured, and by the Netlify function for a POST event
with that body, whatever the credentials are. -/
theorem C7_missing_summary_or_recipients_is_400 (rt : Runtime) (env netlifyEnv : Env)
    (event : Netlify.Event) (body : ShareBody)
    (hu : truthy env.EMAIL_USER = true) (hp : truthy env.EMAIL_PASS = true)
    (hu2 : env.EMAIL_USER ≠ some "your_gmail_address@gmail.com")
    (hp2 : env.EMAIL_PASS ≠ some "your_gmail_app_password")
    (hpost : event.httpMethod = "POST")
    (hparse : rt.parseShareBody event.body = .ok body)
    (h : body.summary = none ∨ body.summary = some "" ∨ body.recipients = none ∨
      body.recipients = some []) :
    shareSummary rt env body =
      ⟨[], .ok ⟨400, .error "Summary and recipients are required"⟩⟩ ∧
    Netlify.ShareSummary.handler rt netlifyEnv event =
      ⟨[], .ok ⟨400, Netlify.headers, .error "Summary and recipients are required"⟩⟩ :=
  ⟨shareSummary_invalid rt env body hu hp hu2 hp2 h,
    netlify_share_invalid rt netlifyEnv event body hpost hparse h⟩

/-- C7 at a concrete request: a summary with an empty recipient list; the Netlify
function runs without any credentials. -/
theorem C7_missing_summary_or_recipients_is_400_witness :
    shareSummary (sampleRuntime noGenerateBody ⟨some "Roadmap was discussed.", some [], none⟩)
        sampleEnv ⟨some "Roadmap was discussed.", some [], none⟩ =
      ⟨[], .ok ⟨400, .error "Summary and recipients are required"⟩⟩ ∧
    Netlify.ShareSummary.handler
        (sampleRuntime noGenerateBody ⟨some "Roadmap was discussed.", some [], none⟩)
        ⟨none, none, none, none⟩ ⟨"POST", "body"⟩ =
      ⟨[], .ok ⟨400, Netlify.headers, .error "Summary and recipients are required"⟩⟩ :=
  C7_missing_summary_or_recipients_is_400
    (sampleRuntime noGenerateBody ⟨some "Roadmap was discussed.", some [], none⟩)
    sampleEnv ⟨none, none, none, none⟩ ⟨"POST", "body"⟩
    ⟨some "Roadmap was discussed.", some [], none⟩
    (by decide) (by decide) (by decide) (by decide) rfl rfl (Or.inr (Or.inr (Or.inr rfl)))

/-- C8: when `EMAIL_USER` or `EMAIL_PASS` is unset, empty or its placeholder, the Express
share endpoint answers every request body with status 500 and an error text that names
`EMAIL_USER` and `EMAIL_PASS`, and submits no mail. -/
theorem C8_missing_mail_credentials_is_500 (rt : Runtime) (env : Env) (body : ShareBody)
    (h : (env.EMAIL_USER = none ∨ env.EMAIL_USER = some "" ∨
        env.EMAIL_USER = some "your_gmail_address@gmail.com") ∨
      (env.EMAIL_PASS = none ∨ env.EMAIL_PASS = some "" ∨
        env.EMAIL_PASS = some "your_gmail_app_password")) :
    shareSummary rt env body = ⟨[], .ok ⟨500, .error
      "Email credentials not configured. Please set EMAIL_USER and EMAIL_PASS in your .env file."⟩⟩ ∧
    includes
      "Email credentials not configured. Please set EMAIL_USER and EMAIL_PASS in your .env file."
      "EMAIL_USER" = true ∧
    includes
      "Email credentials not configured. Please set EMAIL_USER and EMAIL_PASS in your .env file."
      "EMAIL_PASS" = true := by
  refine ⟨shareSummary_unconfigured rt env body ?_, by decide, by decide⟩
  rcases h with h | h
  · exact Or.inl (unconfigured_cases _ _ h)
  · exact Or.inr (unconfigured_cases _ _ h)

/-- C8 at a concrete request: `EMAIL_PASS` unset, a valid body. -/
theorem C8_missing_mail_credentials_is_500_witness :
    shareSummary (sampleRuntime noGenerateBody noShareBody)
        ⟨some "gemini-key", none, some "notes@gmail.com", none⟩
        ⟨some "Roadmap was discussed.", some ["a@x.com"], none⟩ =
      ⟨[], .ok ⟨500, .error
        "Email credentials not configured. Please set EMAIL_USER and EMAIL_PASS in your .env file."⟩⟩ :=
  (C8_missing_mail_credentials_is_500
    (sampleRuntime noGenerateBody noShareBody)
    ⟨some "gemini-key", none, some "notes@gmail.com", none⟩
    ⟨some "Roadmap was discussed.", some ["a@x.com"], none⟩ (Or.inr (Or.inl rfl))).1

/-! ## The audio size gate (C10) -/

theorem masked_message_eq (m : String) :
    "Failed to extract text from " ++ m ++ ": " ++ "Assignment to constant variable." =
      "Failed to extract text from " ++ m ++ ": Assignment to constant variable." := by
  rw [String.append_assoc _ ": " _]
  rfl

/-- C10: for an audio upload with the speech-to-text client configured, a buffer longer
than `2 * 1024 * 1024` bytes makes `extractTextFromFile` fail without any call to the
transcription capability, and a buffer of exactly that length passes the gate and is sent
to it. The failure does not say that the file is too large: the inner `catch` runs
`buffer = null` on a `const` binding before it can rethrow, so the message is
`Failed to extract text from <type>: Assignment to constant variable.` -/
theorem C10_oversized_audio_fails_with_masked_message (rt : Runtime) (env : Env) (file : File)
    (h : file.mimetype ∈ audioTypes) (ho : openai env ≠ none) :
    (file.buffer.length > 2 * 1024 * 1024 →
      extractTextFromFile rt env file = ⟨[], .error (newError
        ("Failed to extract text from " ++ file.mimetype ++
          ": Assignment to constant variable."))⟩ ∧
      includes ("Failed to extract text from " ++ file.mimetype ++
          ": Assignment to constant variable.") "too large" = false) ∧
    (file.buffer.length = 2 * 1024 * 1024 →
      (extractTextFromFile rt env file).calls =
        [.transcriptionsCreate file.buffer file.originalname]) := by
  refine ⟨fun hl => ⟨?_, ?_⟩, fun hl => ?_⟩
  · rw [extract_audio_large rt env file h ho hl, masked_message_eq]
  · simp only [audioTypes, List.mem_cons, List.mem_singleton, List.not_mem_nil, or_false] at h
    rcases h with h | h | h | h | h | h <;> rw [h] <;> decide
  · rw [extract_audio_small rt env file h ho (by omega)]

theorem oversizedAudio_mimetype : oversizedAudio.mimetype = "audio/mpeg" := rfl

theorem oversizedAudio_length : oversizedAudio.buffer.length > 2 * 1024 * 1024 := by
  show (List.replicate (2 * 1024 * 1024 + 1) 0).length > 2 * 1024 * 1024
  rw [List.length_replicate]
  omega

/-- C10 at a concrete upload: an MP3 of `2 * 1024 * 1024 + 1` bytes. -/
theorem C10_oversized_audio_fails_with_masked_message_witness :
    extractTextFromFile (sampleRuntime noGenerateBody noShareBody) sampleEnv oversizedAudio =
      ⟨[], .error (newError
        "Failed to extract text from audio/mpeg: Assignment to constant variable.")⟩ :=
  ((C10_oversized_audio_fails_with_masked_message (sampleRuntime noGenerateBody noShareBody)
    sampleEnv oversizedAudio
    (by rw [oversizedAudio_mimetype]; decide) (by decide)).1 oversizedAudio_length).1

/-! ## Substrings -/

theorem includes_iff (s sub : String) :
    includes s sub = true ↔ sub.data <:+: s.data := by
  unfold includes
  simp only [List.any_eq_true, List.mem_tails, List.isPrefixOf_iff_prefix]
  constructor
  · rintro ⟨t, hs, hp⟩
    exact List.infix_iff_prefix_suffix.mpr ⟨t, hp, hs⟩
  · intro h
    obtain ⟨t, hp, hs⟩ := List.infix_iff_prefix_suffix.mp h
    exact ⟨t, hs, hp⟩

theorem includes_append_mid (a b c : String) : includes (a ++ b ++ c) b = true := by
  rw [includes_iff]
  simp only [String.data_append]
  exact ⟨a.data, c.data, rfl⟩

theorem includes_append_right (a b : String) : includes (a ++ b) b = true := by
  rw [includes_iff]
  simp only [String.data_append]
  exact ⟨a.data, [], by simp⟩

theorem includes_trans (s m sub : String) (h1 : includes s m = true)
    (h2 : includes m sub = true) : includes s sub = true := by
  rw [includes_iff] at *
  exact List.IsInfix.trans h2 h1

theorem includes_append_left (a b : String) : includes (a ++ b) a = true := by
  rw [includes_iff]
  simp only [String.data_append]
  exact ⟨[], b.data, by simp⟩

theorem not_includes_append (s p q : String) (h : includes s p = false) :
    includes s (p ++ q) = false := by
  cases hc : includes s (p ++ q) with
  | false => rfl
  | true =>
    rw [includes_trans s (p ++ q) p hc (includes_append_left p q)] at h
    exact absurd h (by decide)

/-! ## Failures of the audio branch (C11, C12) -/

theorem audio_masked_lacks (m sub : String) (h : m ∈ audioTypes)
    (hsub : sub = "Audio transcription failed: " ∨ sub = "too large") :
    includes ("Failed to extract text from " ++ m ++ ": Assignment to constant variable.")
      sub = false := by
  simp only [audioTypes, List.mem_cons, List.mem_singleton, List.not_mem_nil, or_false] at h
  rcases hsub with hs | hs <;> subst hs <;>
    rcases h with h | h | h | h | h | h <;> subst h <;> decide

/-- C11: for an audio upload within the size limit, with the speech-to-text client
configured, `extractTextFromFile` makes the one transcription call and then fails with
`Failed to extract text from <type>: Assignment to constant variable.`, whatever the call
answers. In particular, when the call fails with cause `c` the message carries neither
`c` nor the remediation text: the inner `catch` runs `buffer = null` on a `const` binding
before it can rethrow `Audio transcription failed: <c>. Please try a smaller audio file
or use text input instead.` -/
theorem C11_transcription_failure_is_masked (rt : Runtime) (env : Env) (file : File)
    (h : file.mimetype ∈ audioTypes) (ho : openai env ≠ none)
    (hl : file.buffer.length ≤ 2 * 1024 * 1024) :
    extractTextFromFile rt env file =
      ⟨[.transcriptionsCreate file.buffer file.originalname], .error (newError
        ("Failed to extract text from " ++ file.mimetype ++
          ": Assignment to constant variable."))⟩ ∧
    ∀ c : String, includes ("Failed to extract text from " ++ file.mimetype ++
        ": Assignment to constant variable.") (transcriptionFailedMessage c) = false := by
  refine ⟨?_, fun c => ?_⟩
  · rw [extract_audio_small rt env file h ho hl, masked_message_eq]
  · unfold transcriptionFailedMessage
    exact not_includes_append _ _ _
      (not_includes_append _ _ _ (audio_masked_lacks _ _ h (Or.inl rfl)))

/-- C11 at a concrete upload: a small MP3 whose transcription fails with
`Connection error.`. -/
theorem C11_transcription_failure_is_masked_witness :
    (failingRuntime (newError "Connection error.")).transcriptionsCreate [73, 68, 51]
        "meeting.mp3" = .error (newError "Connection error.") ∧
    extractTextFromFile (failingRuntime (newError "Connection error.")) sampleEnv
        ⟨[73, 68, 51], "audio/mpeg", "meeting.mp3"⟩ =
      ⟨[.transcriptionsCreate [73, 68, 51] "meeting.mp3"], .error (newError
        "Failed to extract text from audio/mpeg: Assignment to constant variable.")⟩ :=
  ⟨rfl, (C11_transcription_failure_is_masked (failingRuntime (newError "Connection error."))
    sampleEnv ⟨[73, 68, 51], "audio/mpeg", "meeting.mp3"⟩
    (by decide) (by decide) (by decide)).1⟩

/-! ## Failures surfaced by the generate-summary endpoint (C12, C14) -/

theorem generateSummary_extract_error (rt : Runtime) (env : Env) (req : GenerateRequest)
    (file : File) (e : JsError)
    (hk : truthy env.GEMINI_API_KEY = true)
    (hp : env.GEMINI_API_KEY ≠ some "your_gemini_api_key_here")
    (hf : req.file = some file) (he : (extractTextFromFile rt env file).result = .error e) :
    generateSummary rt env req =
      ⟨(extractTextFromFile rt env file).calls, .ok ⟨500, .error (surfacedError e.message)⟩⟩ := by
  unfold generateSummary surfacedError
  simp [hk, hp, hf, he, Js.tryCatch, Js.andThen]
  split_ifs <;> simp

theorem generateSummary_remote_error_text (rt : Runtime) (env : Env) (req : GenerateRequest)
    (t : String) (e : JsError)
    (hk : truthy env.GEMINI_API_KEY = true)
    (hp : env.GEMINI_API_KEY ≠ some "your_gemini_api_key_here")
    (hf : req.file = none) (ht : req.body.transcriptText = some t) (hne : trim t ≠ "")
    (he : rt.generateContent
      (orElse req.body.customPrompt defaultPrompt ++ "\n\nTranscript:\n" ++ t) = .error e) :
    generateSummary rt env req =
      ⟨[.generateContent (orElse req.body.customPrompt defaultPrompt ++ "\n\nTranscript:\n" ++ t)],
        .ok ⟨500, .error (surfacedError e.message)⟩⟩ := by
  have h0 : t ≠ "" := by
    rintro rfl
    exact hne (by decide)
  unfold generateSummary surfacedError
  simp [hk, hp, hf, ht, h0, hne, Js.tryCatch, Js.andThen, Js.call, he]
  split_ifs <;> simp

theorem generateSummary_remote_error_file (rt : Runtime) (env : Env) (req : GenerateRequest)
    (file : File) (t : String) (e : JsError)
    (hk : truthy env.GEMINI_API_KEY = true)
    (hp : env.GEMINI_API_KEY ≠ some "your_gemini_api_key_here")
    (hf : req.file = some file) (ht : (extractTextFromFile rt env file).result = .ok t)
    (hne : trim t ≠ "")
    (he : rt.generateContent
      (orElse req.body.customPrompt defaultPrompt ++ "\n\nTranscript:\n" ++ t) = .error e) :
    generateSummary rt env req =
      ⟨(extractTextFromFile rt env file).calls ++
        [.generateContent (orElse req.body.customPrompt defaultPrompt ++ "\n\nTranscript:\n" ++ t)],
        .ok ⟨500, .error (surfacedError e.message)⟩⟩ := by
  unfold generateSummary surfacedError
  simp [hk, hp, hf, ht, hne, Js.tryCatch, Js.andThen, Js.call, he]
  split_ifs <;> simp

theorem tryCatch_rethrow_form {α : Type} (x : Js α) (g : JsError → JsError) (e : JsError)
    (h : (Js.tryCatch x (fun err => (⟨[], .error (g err)⟩ : Js α))).result = .error e) :
    ∃ inner, x.result = .error inner ∧ e = g inner := by
  unfold Js.tryCatch at h
  cases hx : x.result with
  | ok a => simp [hx] at h
  | error inner =>
    simp [hx] at h
    exact ⟨inner, rfl, h.symm⟩

theorem extract_error_form (rt : Runtime) (env : Env) (file : File) (e : JsError)
    (h : (extractTextFromFile rt env file).result = .error e) :
    ∃ cause : String,
      e = newError ("Failed to extract text from " ++ file.mimetype ++ ": " ++ cause) := by
  unfold extractTextFromFile at h
  obtain ⟨inner, _, hi⟩ := tryCatch_rethrow_form _ _ e h
  exact ⟨inner.message, hi⟩

theorem surfacedError_names (m sub : String) (hsub : includes m sub = true)
    (h1 : includes m "API_KEY_INVALID" = false) (h2 : includes m "PERMISSION_DENIED" = false) :
    includes (surfacedError m) sub = true := by
  unfold surfacedError
  simp only [h1, h2, Bool.false_eq_true, ↓reduceIte]
  split_ifs
  · exact hsub
  · exact includes_trans _ m _ (includes_append_right _ _) hsub

set_option maxRecDepth 100000 in
theorem audio_guidance_lacks_markers (m : String) (h : m ∈ audioTypes) :
    surfacedError ("Failed to extract text from " ++ m ++ ": " ++ audioGuidance) =
      "Failed to generate summary: " ++
        ("Failed to extract text from " ++ m ++ ": " ++ audioGuidance) := by
  simp only [audioTypes, List.mem_cons, List.mem_singleton, List.not_mem_nil, or_false] at h
  rcases h with h | h | h | h | h | h <;> subst h <;> decide

/-- C12, as amended: for an audio upload of any size, when no speech-to-text client is
configured, `extractTextFromFile` fails without any external call; and when
`GEMINI_API_KEY` is configured and is not the placeholder, the Express endpoint answers
with status 500 and the error string `Failed to generate summary: Failed to extract text
from <type>: ` followed by the guidance, which tells to add `OPENAI_API_KEY` to the
`.env` file or to paste the transcript through the text input field. -/
theorem C12_unconfigured_audio_guidance (rt : Runtime) (env : Env) (file : File)
    (body : GenerateBody)
    (h : file.mimetype ∈ audioTypes) (ho : openai env = none)
    (hk : truthy env.GEMINI_API_KEY = true)
    (hp : env.GEMINI_API_KEY ≠ some "your_gemini_api_key_here") :
    extractTextFromFile rt env file =
      ⟨[], .error (newError
        ("Failed to extract text from " ++ file.mimetype ++ ": " ++ audioGuidance))⟩ ∧
    generateSummary rt env ⟨some file, body⟩ =
      ⟨[], .ok ⟨500, .error ("Failed to generate summary: " ++
        ("Failed to extract text from " ++ file.mimetype ++ ": " ++ audioGuidance))⟩⟩ ∧
    includes ("Failed to generate summary: " ++
        ("Failed to extract text from " ++ file.mimetype ++ ": " ++ audioGuidance))
      "Add OPENAI_API_KEY to your .env file" = true ∧
    includes ("Failed to generate summary: " ++
        ("Failed to extract text from " ++ file.mimetype ++ ": " ++ audioGuidance))
      "Use the text input field to paste your transcript manually" = true := by
  have hx : extractTextFromFile rt env file =
      ⟨[], .error (newError
        ("Failed to extract text from " ++ file.mimetype ++ ": " ++ audioGuidance))⟩ :=
    extract_audio_unconfigured rt env file h ho
  have hg : ∀ sub, includes audioGuidance sub = true →
      includes ("Failed to generate summary: " ++
        ("Failed to extract text from " ++ file.mimetype ++ ": " ++ audioGuidance)) sub = true :=
    fun sub hs => includes_trans _ _ _ (includes_append_right _ _)
      (includes_trans _ _ _ (includes_append_right _ _) hs)
  refine ⟨hx, ?_, hg _ (by decide), hg _ (by decide)⟩
  have he : (extractTextFromFile rt env file).result = .error (newError
      ("Failed to extract text from " ++ file.mimetype ++ ": " ++ audioGuidance)) := by
    rw [hx]
  have hs := generateSummary_extract_error rt env ⟨some file, body⟩ file _ hk hp rfl he
  rw [hs, hx]
  simp only [newError]
  rw [audio_guidance_lacks_markers _ h]

/-- C12 at a concrete request: an MP3 upload, only `GEMINI_API_KEY` set. -/
theorem C12_unconfigured_audio_guidance_witness :
    generateSummary (sampleRuntime noGenerateBody noShareBody) geminiOnlyEnv
        ⟨some ⟨[73, 68, 51], "audio/mpeg", "meeting.mp3"⟩, noGenerateBody⟩ =
      ⟨[], .ok ⟨500, .error ("Failed to generate summary: " ++
        ("Failed to extract text from " ++ "audio/mpeg" ++ ": " ++ audioGuidance))⟩⟩ :=
  (C12_unconfigured_audio_guidance (sampleRuntime noGenerateBody noShareBody) geminiOnlyEnv
    ⟨[73, 68, 51], "audio/mpeg", "meeting.mp3"⟩ noGenerateBody
    (by decide) (by decide) (by decide) (by decide)).2.1

/-- C12 as stated fails when `GEMINI_API_KEY` is not set either: for an MP3 upload with no
speech-to-text client the endpoint answers 500 with the configuration message, which
carries no guidance about `OPENAI_API_KEY` or the text input. -/
theorem C12_counterexample_no_gemini_key :
    openai emptyEnv = none ∧
    generateSummary (sampleRuntime noGenerateBody noShareBody) emptyEnv
        ⟨some ⟨[73, 68, 51], "audio/mpeg", "meeting.mp3"⟩, noGenerateBody⟩ =
      ⟨[], .ok ⟨500, .error "Gemini API key not configured. Please check your .env file."⟩⟩ ∧
    includes "Gemini API key not configured. Please check your .env file."
      "OPENAI_API_KEY" = false ∧
    includes "Gemini API key not configured. Please check your .env file."
      "text input" = false :=
  ⟨by decide, generateSummary_unconfigured _ _ _ (Or.inl rfl), by decide, by decide⟩

/-! ## The HTML body and the subject of the mail (C13) -/

theorem replaceNewlines_data (s : String) :
    (replaceNewlines s).data =
      (s.data.map (fun c => if c = '\n' then "<br>".data else [c])).flatten := by
  unfold replaceNewlines
  rw [String.data_join, List.map_map]
  congr 1
  apply List.map_congr_left
  intro c _
  by_cases hc : c = '\n' <;> simp [hc, String.singleton]

theorem replaceNewlines_append (a b : String) :
    replaceNewlines (a ++ b) = replaceNewlines a ++ replaceNewlines b := by
  apply String.ext
  simp [replaceNewlines_data, String.data_append]

theorem replaceNewlines_no_newline (s : String) : '\n' ∉ (replaceNewlines s).data := by
  rw [replaceNewlines_data]
  simp only [List.mem_flatten, List.mem_map, not_exists, not_and]
  rintro l ⟨c, _, rfl⟩
  by_cases hc : c = '\n'
  · simp only [hc, ↓reduceIte]
    decide
  · simp only [hc, ↓reduceIte, List.mem_singleton]
    exact fun h => hc h.symm

theorem replaceNewlines_of_no_newline (s : String) (h : '\n' ∉ s.data) :
    replaceNewlines s = s := by
  apply String.ext
  rw [replaceNewlines_data]
  obtain ⟨l⟩ := s
  simp only at h ⊢
  induction l with
  | nil => rfl
  | cons c cs ih =>
    have hc : c ≠ '\n' := fun hc => h (by simp [hc])
    have hcs : '\n' ∉ cs := fun hm => h (List.mem_cons_of_mem _ hm)
    simp [hc, ih hcs]


/-- C13: for a non-empty summary `s` and a non-empty recipient list the Express endpoint,
with mail credentials configured, submits one message whose HTML body is the fixed
template text before the summary, then `s` with every newline replaced by `<br>` and no
other character changed, then the fixed text after it, and whose subject is the supplied
subject when it is non-empty and `Meeting Summary` otherwise. The replacement leaves no
newline, is the identity on a text without newline, and maps `a`, newline, `b` to the
replacement of `a`, `<br>`, the replacement of `b`. The Netlify function never builds the
message: `nodemailer.createTransporter(...)` throws, so it answers 500
`Failed to share summary` and submits nothing. -/
theorem C13_html_body_and_subject_express_only (rt : Runtime) (env : Env)
    (event : Netlify.Event) (summary : String) (recipients : List String)
    (subject : Option String)
    (hs : summary ≠ "") (hr : recipients ≠ [])
    (hu : truthy env.EMAIL_USER = true) (hp : truthy env.EMAIL_PASS = true)
    (hu2 : env.EMAIL_USER ≠ some "your_gmail_address@gmail.com")
    (hp2 : env.EMAIL_PASS ≠ some "your_gmail_app_password")
    (hpost : event.httpMethod = "POST")
    (hparse : rt.parseShareBody event.body = .ok ⟨some summary, some recipients, subject⟩) :
    (∃ m, (shareSummary rt env ⟨some summary, some recipients, subject⟩).calls = [.sendMail m] ∧
      m.html = htmlPrefix ++ replaceNewlines summary ++ htmlSuffix ∧
      m.subject = (match subject with
        | some s => if s = "" then "Meeting Summary" else s
        | none => "Meeting Summary")) ∧
    '\n' ∉ (replaceNewlines summary).data ∧
    ('\n' ∉ summary.data → replaceNewlines summary = summary) ∧
    (∀ a b : String, replaceNewlines (a ++ "\n" ++ b) =
      replaceNewlines a ++ "<br>" ++ replaceNewlines b) ∧
    Netlify.ShareSummary.handler rt env event =
      ⟨[], .ok ⟨500, Netlify.headers, .error "Failed to share summary"⟩⟩ := by
  refine ⟨⟨_, shareSummary_valid rt env summary recipients subject hu hp hu2 hp2 hs hr, rfl, ?_⟩,
    replaceNewlines_no_newline summary, replaceNewlines_of_no_newline summary, ?_,
    netlify_share_valid rt env event summary recipients subject hpost hparse hs hr⟩
  · cases subject with
    | none => rfl
    | some s => by_cases h0 : s = "" <;> simp [orElse, h0]
  · intro a b
    rw [replaceNewlines_append, replaceNewlines_append]
    rfl

/-- C13 at a concrete request: a summary of two lines and no subject. The Express
endpoint submits one message with the line break rendered as `<br>`; the Netlify
function answers 500 and submits no message. -/
theorem C13_html_body_and_subject_express_only_witness :
    replaceNewlines "Roadmap.\nNext steps." = "Roadmap.<br>Next steps." ∧
    (∃ m, (shareSummary
        (sampleRuntime noGenerateBody ⟨some "Roadmap.\nNext steps.", some ["a@x.com"], none⟩)
        sampleEnv ⟨some "Roadmap.\nNext steps.", some ["a@x.com"], none⟩).calls =
          [.sendMail m] ∧
      m.html = htmlPrefix ++ replaceNewlines "Roadmap.\nNext steps." ++ htmlSuffix ∧
      m.subject = "Meeting Summary") ∧
    Netlify.ShareSummary.handler
        (sampleRuntime noGenerateBody ⟨some "Roadmap.\nNext steps.", some ["a@x.com"], none⟩)
        sampleEnv ⟨"POST", "body"⟩ =
      ⟨[], .ok ⟨500, Netlify.headers, .error "Failed to share summary"⟩⟩ :=
  ⟨by decide,
    (C13_html_body_and_subject_express_only
      (sampleRuntime noGenerateBody ⟨some "Roadmap.\nNext steps.", some ["a@x.com"], none⟩)
      sampleEnv ⟨"POST", "body"⟩ "Roadmap.\nNext steps." ["a@x.com"] none
      (by decide) (by decide) (by decide) (by decide) (by decide) (by decide) rfl rfl).1,
    (C13_html_body_and_subject_express_only
      (sampleRuntime noGenerateBody ⟨some "Roadmap.\nNext steps.", some ["a@x.com"], none⟩)
      sampleEnv ⟨"POST", "body"⟩ "Roadmap.\nNext steps." ["a@x.com"] none
      (by decide) (by decide) (by decide) (by decide) (by decide) (by decide) rfl rfl).2.2.2.2⟩

/-! ## The failure taxonomy of the generate-summary endpoint (C14) -/

/-- C14, as amended: with the key configured, every failure raised while the endpoint
processes a request, whether thrown by text extraction or by the generative call, is
answered with status 500 and the error string chosen from its message `m` by first
match (`API_KEY_INVALID`, `PERMISSION_DENIED`, `OpenAI API key required`, else
`Failed to generate summary: ` followed by `m`); the body is an error object, never a
summary. The message of an extraction failure is `Failed to extract text from <type>: `
followed by the cause, and the answer names the type whenever that message contains
neither `API_KEY_INVALID` nor `PERMISSION_DENIED`. -/
theorem C14_failures_are_surfaced_by_first_match (rt : Runtime) (env : Env)
    (hk : truthy env.GEMINI_API_KEY = true)
    (hp : env.GEMINI_API_KEY ≠ some "your_gemini_api_key_here") :
    (∀ (file : File) (body : GenerateBody) (e : JsError),
      (extractTextFromFile rt env file).result = .error e →
      (generateSummary rt env ⟨some file, body⟩).result =
          .ok ⟨500, .error (surfacedError e.message)⟩ ∧
        (∃ cause, e.message =
          "Failed to extract text from " ++ file.mimetype ++ ": " ++ cause) ∧
        (includes e.message "API_KEY_INVALID" = false →
          includes e.message "PERMISSION_DENIED" = false →
          includes (surfacedError e.message) file.mimetype = true)) ∧
    (∀ (t : String) (c : Option String) (e : JsError), trim t ≠ "" →
      rt.generateContent (orElse c defaultPrompt ++ "\n\nTranscript:\n" ++ t) = .error e →
      (generateSummary rt env ⟨none, ⟨some t, c⟩⟩).result =
        .ok ⟨500, .error (surfacedError e.message)⟩) ∧
    (∀ (file : File) (body : GenerateBody) (t : String) (e : JsError),
      (extractTextFromFile rt env file).result = .ok t → trim t ≠ "" →
      rt.generateContent
        (orElse body.customPrompt defaultPrompt ++ "\n\nTranscript:\n" ++ t) = .error e →
      (generateSummary rt env ⟨some file, body⟩).result =
        .ok ⟨500, .error (surfacedError e.message)⟩) := by
  refine ⟨?_, ?_, ?_⟩
  · intro file body e he
    obtain ⟨cause, hc⟩ := extract_error_form rt env file e he
    have hm : e.message = "Failed to extract text from " ++ file.mimetype ++ ": " ++ cause := by
      rw [hc]
      rfl
    refine ⟨?_, ⟨cause, hm⟩, ?_⟩
    · rw [generateSummary_extract_error rt env ⟨some file, body⟩ file e hk hp rfl he]
    · intro h1 h2
      refine surfacedError_names _ _ ?_ h1 h2
      rw [hm]
      exact includes_trans _ _ _ (includes_append_left _ cause) (includes_append_mid _ _ _)
  · intro t c e ht he
    rw [generateSummary_remote_error_text rt env ⟨none, ⟨some t, c⟩⟩ t e hk hp rfl rfl ht he]
  · intro file body t e hx ht he
    rw [generateSummary_remote_error_file rt env ⟨some file, body⟩ file t e hk hp rfl hx ht he]

/-- C14 at a concrete request: an upload of an unsupported type is answered with the
wrapped catch-all, which names the type. -/
theorem C14_failures_are_surfaced_by_first_match_witness :
    (generateSummary (sampleRuntime noGenerateBody noShareBody) sampleEnv
        ⟨some ⟨[137, 80, 78, 71], "image/png", "slide.png"⟩, noGenerateBody⟩).result =
      .ok ⟨500, .error
        "Failed to generate summary: Failed to extract text from image/png: Unsupported file type"⟩ := by
  have h := ((C14_failures_are_surfaced_by_first_match
    (sampleRuntime noGenerateBody noShareBody) sampleEnv (by decide) (by decide)).1
    ⟨[137, 80, 78, 71], "image/png", "slide.png"⟩ noGenerateBody
    (newError "Failed to extract text from image/png: Unsupported file type")
    (by rw [extract_unsupported _ _ _ (by decide)]; rfl)).1
  have hs : surfacedError "Failed to extract text from image/png: Unsupported file type" =
      "Failed to generate summary: Failed to extract text from image/png: Unsupported file type" := by
    decide
  simp only [newError, hs] at h
  exact h

/-- C14 as stated fails for an extraction failure whose cause carries a marker of the
generative capability: a PDF whose parser throws `PERMISSION_DENIED` is answered with
`Permission denied. Please check your Gemini API key permissions.`, which does not name
the type `application/pdf`. -/
theorem C14_counterexample_marker_in_cause :
    fileFilter ⟨[37, 80, 68, 70], "application/pdf", "notes.pdf"⟩ = .ok true ∧
    (extractTextFromFile (failingRuntime (newError "PERMISSION_DENIED")) sampleEnv
        ⟨[37, 80, 68, 70], "application/pdf", "notes.pdf"⟩).result =
      .error (newError "Failed to extract text from application/pdf: PERMISSION_DENIED") ∧
    (generateSummary (failingRuntime (newError "PERMISSION_DENIED")) sampleEnv
        ⟨some ⟨[37, 80, 68, 70], "application/pdf", "notes.pdf"⟩, noGenerateBody⟩).result =
      .ok ⟨500, .error "Permission denied. Please check your Gemini API key permissions."⟩ ∧
    includes "Permission denied. Please check your Gemini API key permissions."
      "application/pdf" = false := by
  have hx : (extractTextFromFile (failingRuntime (newError "PERMISSION_DENIED")) sampleEnv
      ⟨[37, 80, 68, 70], "application/pdf", "notes.pdf"⟩).result =
      .error (newError "Failed to extract text from application/pdf: PERMISSION_DENIED") := by
    rw [extract_pdf _ _ _ rfl]
    rfl
  have hs : surfacedError "Failed to extract text from application/pdf: PERMISSION_DENIED" =
      "Permission denied. Please check your Gemini API key permissions." := by decide
  refine ⟨rfl, hx, ?_, by decide⟩
  rw [generateSummary_extract_error _ _ _ _ _ (by decide) (by decide) rfl hx]
  simp only [newError, hs]

end MeetingNotes
